import Mathlib

/-
  Verification of the Relationship Reconciliation & Batch Cleanup Engine
  of cleanfollow-bsky.

  The repository ships two versions of the same application:
  src/src/App.tsx (suffix App below) and src/unnamed/part_000
  (suffix Part below).  Network effects are modelled by passing the
  fixed remote state (page contents, fetch results, resolved handles)
  as explicit inputs; machine integers do not overflow in the source
  (small bitmasks), so statuses are plain Nat bitmasks.
-/

/-- Bitmask values of the RepoStatus enum (1 <<< k in the source). -/
def RepoStatus.BLOCKEDBY : Nat := 1

def RepoStatus.BLOCKING : Nat := 2

def RepoStatus.DELETED : Nat := 4

def RepoStatus.DEACTIVATED : Nat := 8

def RepoStatus.SUSPENDED : Nat := 16

def RepoStatus.HIDDEN : Nat := 32

def RepoStatus.YOURSELF : Nat := 64

def RepoStatus.UNKNOWN : Nat := 128

/-- Viewer relationship data of app.bsky.actor.getProfile
    (fields read by checkProfileStatus). -/
structure Viewer where
  blockedBy : Bool
  blocking : Bool
  blockingByList : Bool
deriving DecidableEq

/-- Well-formed successful profile payload: the fields checkProfileStatus
    reads (did, handle, moderation label values, viewer relationship). -/
structure Profile where
  did : String
  handle : String
  labels : List String
  viewer : Viewer
deriving DecidableEq

/-- Error payload of a failed app.bsky.actor.getProfile call, with the
    fields inspected by the two versions of checkProfileStatus:
    e.message, e.data.message, e.data.error and e.status.
    Absent string fields are modelled as the empty string, mirroring
    the falsy checks of the source. -/
structure ErrPayload where
  message : String
  dataMessage : String
  errorCode : String
  httpStatus : Option Nat
deriving DecidableEq

/-- Outcome of the profile fetch, provided by the environment. -/
inductive FetchResult where
  | ok : Profile → FetchResult
  | err : ErrPayload → FetchResult
deriving DecidableEq

/-- The details field of the error object built by part_000
    (httpStatus and errorCode of the original failure). -/
structure ErrDetails where
  httpStatus : Option Nat
  errorCode : String
deriving DecidableEq

/-- The descriptive error object of part_000 (type, message, details). -/
structure ClassifierError where
  etype : String
  message : String
  details : Option ErrDetails
deriving DecidableEq

/-- ProfileCheckResult of the source: best-effort handle, optional
    status bitmask, optional error object (error is only populated by
    part_000; App.tsx returns just handle and status). -/
structure ProfileCheckResult where
  handle : String
  status : Option Nat
  error : Option ClassifierError
deriving DecidableEq

/-- AccountRecord as in the source (did, handle, uri, status bitmask,
    label, selection flag, visibility flag). -/
structure AccountRecord where
  did : String
  handle : String
  uri : String
  status : Nat
  status_label : String
  toDelete : Bool
  visible : Bool
deriving DecidableEq

/-- A repository block record projected to the fields the engine keeps:
    subject did and record uri. -/
structure BlockEntry where
  did : String
  uri : String
deriving DecidableEq

/-- A repository follow record projected to subject did and record uri. -/
structure FollowEntry where
  subject : String
  uri : String
deriving DecidableEq

/-- Does the character list l start with pat. -/
def seqStartsWith : List Char → List Char → Bool
  | _, [] => true
  | [], _ :: _ => false
  | x :: xs, p :: ps => x = p && seqStartsWith xs ps

/-- Does pat occur contiguously somewhere in l. -/
def seqContains : List Char → List Char → Bool
  | [], pat => pat.isEmpty
  | x :: xs, pat => seqStartsWith (x :: xs) pat || seqContains xs pat

/-- JavaScript String.prototype.includes: sub occurs as a contiguous
    substring of s. -/
def jsIncludes (s sub : String) : Bool :=
  seqContains s.data sub.data

/-- Success-path classification of App.tsx checkProfileStatus: the label
    check, then blockedBy (upgraded to mutual when also blocking), then
    the YOURSELF check written as res.data.did.includes(agentDID), then
    blocking, else no status. -/
def classifySuccess_App (agentDID : String) (p : Profile) : Option Nat :=
  if p.labels.contains "!hide" then some RepoStatus.HIDDEN
  else if p.viewer.blockedBy then
    some (if p.viewer.blocking || p.viewer.blockingByList then
            RepoStatus.BLOCKEDBY ||| RepoStatus.BLOCKING
          else RepoStatus.BLOCKEDBY)
  else if jsIncludes p.did agentDID then some RepoStatus.YOURSELF
  else if p.viewer.blocking || p.viewer.blockingByList then some RepoStatus.BLOCKING
  else none

/-- Error-path classification of App.tsx checkProfileStatus: substring
    tests on e.message in source order. -/
def classifyError_App (e : ErrPayload) : Nat :=
  if jsIncludes e.message "not found" then RepoStatus.DELETED
  else if jsIncludes e.message "deactivated" then RepoStatus.DEACTIVATED
  else if jsIncludes e.message "suspended" then RepoStatus.SUSPENDED
  else RepoStatus.UNKNOWN

/-- checkProfileStatus of App.tsx: on success the viewer-relationship
    chain, on failure the handle is recovered through the DID document
    (resolveDid, passed as the fixed environment) and the error message
    is mapped to a status. -/
def checkProfileStatus_App (agentDID : String) (resolveDid : String → String)
    (did : String) : FetchResult → ProfileCheckResult
  | FetchResult.ok p => { handle := p.handle, status := classifySuccess_App agentDID p, error := none }
  | FetchResult.err e =>
      { handle := resolveDid did, status := some (classifyError_App e), error := none }

/-- Success-path classification of part_000 checkProfileStatus: same
    chain as App.tsx except the YOURSELF test is strict equality
    res.data.did === agentDID. -/
def classifySuccess_Part (agentDID : String) (p : Profile) : Option Nat :=
  if p.labels.contains "!hide" then some RepoStatus.HIDDEN
  else if p.viewer.blockedBy then
    some (if p.viewer.blocking || p.viewer.blockingByList then
            RepoStatus.BLOCKEDBY ||| RepoStatus.BLOCKING
          else RepoStatus.BLOCKEDBY)
  else if p.did = agentDID then some RepoStatus.YOURSELF
  else if p.viewer.blocking || p.viewer.blockingByList then some RepoStatus.BLOCKING
  else none

/-- The account-deactivated signal of part_000:
    errorData.error === "AccountDeactivated" or the message contains it. -/
def deactivatedSignal (e : ErrPayload) : Bool :=
  e.errorCode = "AccountDeactivated" || jsIncludes e.message "AccountDeactivated"

/-- The account-suspended signal of part_000. -/
def suspendedSignal (e : ErrPayload) : Bool :=
  e.errorCode = "AccountSuspended" || jsIncludes e.message "AccountSuspended"

/-- The account-deleted / actor-not-found / generic bad-request signal
    of part_000. -/
def deletedSignal (e : ErrPayload) : Bool :=
  e.errorCode = "AccountDeleted" || e.errorCode = "ActorNotFound" || e.httpStatus = some 400

/-- Error-path classification of part_000 checkProfileStatus, in source
    order: deactivated, suspended, deleted/not-found/400, else unknown. -/
def classifyError_Part (e : ErrPayload) : Nat :=
  if deactivatedSignal e then RepoStatus.DEACTIVATED
  else if suspendedSignal e then RepoStatus.SUSPENDED
  else if deletedSignal e then RepoStatus.DELETED
  else RepoStatus.UNKNOWN

/-- The error object part_000 builds in its catch branch:
    type "api", message errorData.message || errorMessage ||
    "Profile not accessible", details carrying httpStatus and errorCode. -/
def mkError_Part (e : ErrPayload) : ClassifierError :=
  { etype := "api"
    message :=
      if e.dataMessage ≠ "" then e.dataMessage
      else if e.message ≠ "" then e.message
      else "Profile not accessible"
    details := some { httpStatus := e.httpStatus, errorCode := e.errorCode } }

/-- checkProfileStatus of part_000: the catch branch recovers the handle
    through resolveDid, maps the payload to a status and always returns
    a descriptive error object.  The validation branches for payloads
    missing did or handle are outside the well-formed success path
    modelled here. -/
def checkProfileStatus_Part (agentDID : String) (resolveDid : String → String)
    (did : String) : FetchResult → ProfileCheckResult
  | FetchResult.ok p => { handle := p.handle, status := classifySuccess_Part agentDID p, error := none }
  | FetchResult.err e =>
      { handle := resolveDid did, status := some (classifyError_Part e),
        error := some (mkError_Part e) }

/-- Follow-mode status label chain, in source order (equality tests, so
    an undefined status and any value outside the table give ""). -/
def statusLabelFollow (status : Option Nat) : String :=
  if status = some RepoStatus.DELETED then "Deleted"
  else if status = some RepoStatus.DEACTIVATED then "Deactivated"
  else if status = some RepoStatus.SUSPENDED then "Suspended"
  else if status = some RepoStatus.YOURSELF then "Literally Yourself"
  else if status = some RepoStatus.BLOCKING then "Blocking"
  else if status = some RepoStatus.BLOCKEDBY then "Blocked by"
  else if status = some RepoStatus.HIDDEN then "Hidden by moderation service"
  else if status = some (RepoStatus.BLOCKEDBY ||| RepoStatus.BLOCKING) then "Mutual Block"
  else if status = some RepoStatus.UNKNOWN then "Unknown Status"
  else ""

/-- Block-mode record construction of App.tsx: label defaults to
    "Unknown" and is set for DELETED, DEACTIVATED, SUSPENDED; the stored
    status is status || RepoStatus.UNKNOWN; handle falls back to the
    placeholder; visible is currentToggleStates[actualStatus] ?? true. -/
def mkBlock_App (toggles : List (Nat × Bool)) (b : BlockEntry)
    (res : ProfileCheckResult) : AccountRecord :=
  let actualStatus := res.status.getD RepoStatus.UNKNOWN
  { did := b.did
    handle := if res.handle = "" then "[Unknown Handle]" else res.handle
    uri := b.uri
    status := actualStatus
    status_label :=
      if res.status = some RepoStatus.DELETED then "Deleted"
      else if res.status = some RepoStatus.DEACTIVATED then "Deactivated"
      else if res.status = some RepoStatus.SUSPENDED then "Suspended"
      else "Unknown"
    toDelete := false
    visible := (toggles.lookup actualStatus).getD true }

/-- Block-mode record construction of part_000: actualStatus starts at
    UNKNOWN and is overwritten only for DELETED, DEACTIVATED, SUSPENDED. -/
def mkBlock_Part (toggles : List (Nat × Bool)) (b : BlockEntry)
    (res : ProfileCheckResult) : AccountRecord :=
  let actualStatus :=
    if res.status = some RepoStatus.DELETED then RepoStatus.DELETED
    else if res.status = some RepoStatus.DEACTIVATED then RepoStatus.DEACTIVATED
    else if res.status = some RepoStatus.SUSPENDED then RepoStatus.SUSPENDED
    else RepoStatus.UNKNOWN
  { did := b.did
    handle := if res.handle = "" then "[Unknown Handle]" else res.handle
    uri := b.uri
    status := actualStatus
    status_label :=
      if res.status = some RepoStatus.DELETED then "Deleted"
      else if res.status = some RepoStatus.DEACTIVATED then "Deactivated"
      else if res.status = some RepoStatus.SUSPENDED then "Suspended"
      else "Unknown"
    toDelete := false
    visible := (toggles.lookup actualStatus).getD true }

/-- Block-mode output of fetchHiddenAccounts in App.tsx: one record is
    pushed per stale candidate, in order, whatever the classification
    outcome (the pacing timer does not affect the data). -/
def blockModeOutput_App (toggles : List (Nat × Bool)) (stale : List BlockEntry)
    (classify : String → ProfileCheckResult) : List AccountRecord :=
  stale.map (fun b => mkBlock_App toggles b (classify b.did))

/-- Block-mode output of fetchHiddenAccounts in part_000. -/
def blockModeOutput_Part (toggles : List (Nat × Bool)) (stale : List BlockEntry)
    (classify : String → ProfileCheckResult) : List AccountRecord :=
  stale.map (fun b => mkBlock_Part toggles b (classify b.did))

/-- The follow record pushed by fetchHiddenAccounts when the classifier
    returned the defined status s: handle with placeholder fallback,
    label from the chain, visible from the toggle configuration. -/
def mkFollowOut (toggles : List (Nat × Bool)) (f : FollowEntry)
    (res : ProfileCheckResult) (s : Nat) : AccountRecord :=
  { did := f.subject
    handle := if res.handle = "" then "[Unknown Handle]" else res.handle
    uri := f.uri
    status := s
    status_label := statusLabelFollow res.status
    toDelete := false
    visible := (toggles.lookup s).getD true }

/-- Follow-mode output of fetchHiddenAccounts (identical record
    construction in both versions): a record is pushed exactly when the
    classifier returned a defined status.  Batch completions interleave,
    so the list order is scheduler-dependent in the source; membership is
    what this embedding fixes. -/
def followOutput (toggles : List (Nat × Bool)) (classify : String → ProfileCheckResult)
    (follows : List FollowEntry) : List AccountRecord :=
  follows.filterMap (fun f => ((classify f.subject).status).map (mkFollowOut toggles f (classify f.subject)))

/-- The repository scan of fetchBlocks: walk the block records, keep
    (and push) a record whose subject is still in the remaining live
    block set, removing the subject from that working set. -/
def fetchBlocksAux : List BlockEntry → List String → List BlockEntry
  | [], _ => []
  | r :: rs, blocked =>
      if r.did ∈ blocked then r :: fetchBlocksAux rs (blocked.erase r.did)
      else fetchBlocksAux rs blocked

/-- fetchBlocks: the live active-block list becomes a Set (dedup), then
    the repository block records are matched against it. -/
def fetchBlocks (repoRecords : List BlockEntry) (liveBlocks : List String) : List BlockEntry :=
  fetchBlocksAux repoRecords liveBlocks.dedup

/-- The stale candidate set of block-mode fetchHiddenAccounts:
    allBlockRecords.filter(record => !activeDids.has(record.did)) where
    activeDids are the subjects returned by fetchBlocks. -/
def blocksToDelete (repoRecords : List BlockEntry) (liveBlocks : List String) : List BlockEntry :=
  let activeDids := (fetchBlocks repoRecords liveBlocks).map (fun b => b.did)
  repoRecords.filter (fun r => decide (r.did ∉ activeDids))

/-- One step of cursor pagination against a server holding rem items
    and omitting the continuation cursor on the final page; b selects
    the short-page termination policy of fetchFollows.  Fuel bounds the
    recursion; paginate supplies enough fuel for any positive page size. -/
def paginateAux (P : Nat) (b : Bool) : Nat → List α → List α × Nat
  | 0, _ => ([], 0)
  | Nat.succ fuel, rem =>
      if P < rem.length then
        if b = true ∧ (rem.take P).length < P then (rem.take P, 1)
        else
          ((rem.take P) ++ (paginateAux P b fuel (rem.drop P)).1,
            (paginateAux P b fuel (rem.drop P)).2 + 1)
      else (rem.take P, 1)

/-- The paginated fetcher: all items in server order together with the
    number of page requests issued. -/
def paginate (P : Nat) (b : Bool) (xs : List α) : List α × Nat :=
  paginateAux P b (xs.length + 1) xs

/-- Split a character list at a separator (JavaScript String.split). -/
def splitCharAux (c : Char) : List Char → List Char → List (List Char)
  | [], cur => [cur.reverse]
  | x :: xs, cur =>
      if x = c then cur.reverse :: splitCharAux c xs []
      else splitCharAux c xs (x :: cur)

/-- record.uri.split("/").pop(): the trailing segment of the locator. -/
def rkeyOf (uri : String) : String :=
  String.mk ((splitCharAux '/' uri.data []).getLastD [])

/-- A com.atproto.repo.applyWrites#delete operation. -/
structure DeleteOp where
  collection : String
  rkey : String
deriving DecidableEq

/-- The delete operations removeItems builds: one per record marked
    toDelete, keyed by the trailing segment of the record uri. -/
def removeWrites (collection : String) (items : List AccountRecord) : List DeleteOp :=
  (items.filter (fun r => r.toDelete)).map
    (fun r => { collection := collection, rkey := rkeyOf r.uri })

/-- Chunking loop of removeItems: slices of at most n operations,
    taken in order.  Fuel bounds the recursion; chunks supplies enough. -/
def chunksAux (n : Nat) : Nat → List α → List (List α)
  | _, [] => []
  | 0, _ => []
  | Nat.succ fuel, l => l.take n :: chunksAux n fuel (l.drop n)

/-- The batches removeItems submits sequentially (BATCHSIZE slices). -/
def chunks (n : Nat) (l : List α) : List (List α) :=
  chunksAux n l.length l

/-- removeItems: the sequence of applyWrites calls, each holding at most
    BATCHSIZE = 200 delete operations, in submission order. -/
def removeBatches (collection : String) (items : List AccountRecord) : List (List DeleteOp) :=
  chunks 200 (removeWrites collection items)

/-- The two record fields editRecords can write. -/
inductive EditField where
  | visibleF
  | toDeleteF
deriving DecidableEq

/-- Store write of one field on one record. -/
def setField (r : AccountRecord) : EditField → Bool → AccountRecord
  | EditField.visibleF, v => { r with visible := v }
  | EditField.toDeleteF, v => { r with toDelete := v }

/-- editRecords: writes the field on every record whose status has a bit
    in common with the selected category (record.status & status truthy). -/
def editRecords (recs : List AccountRecord) (status : Nat) (f : EditField) (v : Bool) :
    List AccountRecord :=
  recs.map (fun r => if r.status &&& status ≠ 0 then setField r f v else r)

/-- Store write on the toggle configuration (later entries shadow
    earlier ones under List.lookup). -/
def setToggle (toggles : List (Nat × Bool)) (status : Nat) (v : Bool) : List (Nat × Bool) :=
  (status, v) :: toggles

/-- Record part of updateToggleState: visibility is set to the toggle
    value on matching records, and on toggle-off the selection flag of
    matching records is cleared as well. -/
def updateToggleRecords (recs : List AccountRecord) (status : Nat) (value : Bool) :
    List AccountRecord :=
  let recs1 := editRecords recs status EditField.visibleF value
  if value then recs1 else editRecords recs1 status EditField.toDeleteF false

/-- updateToggleState of the source: new toggle configuration and new
    record collection of the active mode. -/
def updateToggleState (toggles : List (Nat × Bool)) (recs : List AccountRecord)
    (status : Nat) (value : Bool) : List (Nat × Bool) × List AccountRecord :=
  (setToggle toggles status value, updateToggleRecords recs status value)

/-
  Theorems.
-/

theorem mem_map_did_fetchBlocksAux (rs : List BlockEntry) (blocked : List String)
    (hnd : blocked.Nodup) (d : String) :
    d ∈ (fetchBlocksAux rs blocked).map (fun b => b.did) ↔
      d ∈ rs.map (fun b => b.did) ∧ d ∈ blocked := by
  induction rs generalizing blocked with
  | nil => simp [fetchBlocksAux]
  | cons r rs ih =>
    by_cases h : r.did ∈ blocked
    · rw [fetchBlocksAux, if_pos h]
      simp only [List.map_cons, List.mem_cons]
      rw [ih _ (hnd.erase _), hnd.mem_erase_iff]
      constructor
      · rintro (rfl | ⟨hd, hne, hb⟩)
        · exact ⟨Or.inl rfl, h⟩
        · exact ⟨Or.inr hd, hb⟩
      · rintro ⟨rfl | hd, hb⟩
        · exact Or.inl rfl
        · by_cases he : d = r.did
          · exact Or.inl he
          · exact Or.inr ⟨hd, he, hb⟩
    · rw [fetchBlocksAux, if_neg h]
      rw [ih _ hnd]
      simp only [List.map_cons, List.mem_cons]
      constructor
      · rintro ⟨hd, hb⟩
        exact ⟨Or.inr hd, hb⟩
      · rintro ⟨rfl | hd, hb⟩
        · exact absurd hb h
        · exact ⟨hd, hb⟩

theorem fetchBlocks_did_mem (repo : List BlockEntry) (live : List String) (d : String) :
    d ∈ (fetchBlocks repo live).map (fun b => b.did) ↔
      d ∈ repo.map (fun b => b.did) ∧ d ∈ live := by
  unfold fetchBlocks
  rw [mem_map_did_fetchBlocksAux _ _ live.nodup_dedup, List.mem_dedup]

/-- C1: in block mode the candidate set handed to classification is
    exactly the repository block records whose subject did is absent
    from the live active-block list: a pure set difference by subject
    identifier, invariant under reordering of the live list, giving the
    same stale or active verdict to every record sharing a subject did
    even when duplicate records occur. -/
theorem blocksToDelete_set_difference (repo : List BlockEntry) (live : List String) :
    (∀ r, r ∈ blocksToDelete repo live ↔ r ∈ repo ∧ r.did ∉ live) ∧
    (∀ live', live.Perm live' → blocksToDelete repo live = blocksToDelete repo live') ∧
    (∀ r1 r2, r1 ∈ repo → r2 ∈ repo → r1.did = r2.did →
      (r1 ∈ blocksToDelete repo live ↔ r2 ∈ blocksToDelete repo live)) := by
  have hmem : ∀ (lv : List String) (r : BlockEntry),
      r ∈ blocksToDelete repo lv ↔ r ∈ repo ∧ r.did ∉ lv := by
    intro lv r
    unfold blocksToDelete
    rw [List.mem_filter]
    simp only [decide_eq_true_eq]
    constructor
    · rintro ⟨hr, hnin⟩
      refine ⟨hr, fun hl => hnin ?_⟩
      exact (fetchBlocks_did_mem repo lv r.did).mpr ⟨List.mem_map_of_mem _ hr, hl⟩
    · rintro ⟨hr, hnin⟩
      refine ⟨hr, fun hin => hnin ?_⟩
      exact ((fetchBlocks_did_mem repo lv r.did).mp hin).2
  refine ⟨hmem live, ?_, ?_⟩
  · intro live' hperm
    unfold blocksToDelete
    apply List.filter_congr
    intro r hr
    rw [decide_eq_decide]
    have h1 := fetchBlocks_did_mem repo live r.did
    have h2 := fetchBlocks_did_mem repo live' r.did
    rw [not_iff_not, h1, h2, hperm.mem_iff]
  · intro r1 r2 h1 h2 heq
    rw [hmem live r1, hmem live r2, heq]
    simp [h1, h2]

/-- Witness for C1 at a concrete reconciliation state: records for aaa
    and bbb, live list containing only bbb, so the aaa record is stale. -/
theorem blocksToDelete_set_difference_witness :
    BlockEntry.mk "did:plc:aaa" "at://self/app.bsky.graph.block/3k1" ∈
      blocksToDelete
        [BlockEntry.mk "did:plc:aaa" "at://self/app.bsky.graph.block/3k1",
         BlockEntry.mk "did:plc:bbb" "at://self/app.bsky.graph.block/3k2"]
        ["did:plc:bbb"] :=
  ((blocksToDelete_set_difference _ _).1 _).mpr ⟨by decide, by decide⟩


theorem paginateAux_correct {α : Type} (P : Nat) (hP : 0 < P) (b : Bool) :
    ∀ (fuel : Nat) (rem : List α), rem.length < fuel →
      paginateAux P b fuel rem =
        (rem, if rem.length = 0 then 1 else (rem.length + P - 1) / P) := by
  intro fuel
  induction fuel with
  | zero => exact fun rem h => absurd h (Nat.not_lt_zero _)
  | succ fuel ih =>
    intro rem h
    by_cases hlen : P < rem.length
    · have hpg : (rem.take P).length = P := by
        rw [List.length_take]
        omega
      have hshort : ¬(b = true ∧ (rem.take P).length < P) := by
        rintro ⟨-, hc⟩
        rw [hpg] at hc
        exact absurd hc (lt_irrefl P)
      have hdrop : (rem.drop P).length = rem.length - P := List.length_drop P rem
      have hfuel : (rem.drop P).length < fuel := by omega
      rw [paginateAux, if_pos hlen, if_neg hshort, ih _ hfuel]
      have hne : ¬((rem.drop P).length = 0) := by omega
      have h0 : ¬(rem.length = 0) := by omega
      rw [Prod.mk.injEq]
      constructor
      · show rem.take P ++ rem.drop P = rem
        exact List.take_append_drop P rem
      · show (if (rem.drop P).length = 0 then 1 else ((rem.drop P).length + P - 1) / P) + 1 = _
        rw [if_neg hne, if_neg h0, hdrop]
        have e1 : rem.length - P + P - 1 = rem.length - 1 := by omega
        have e2 : rem.length + P - 1 = (rem.length - 1) + P := by omega
        rw [e1, e2, Nat.add_div_right _ hP]
    · have hle : rem.length ≤ P := le_of_not_lt hlen
      rw [paginateAux, if_neg hlen, List.take_of_length_le hle]
      rw [Prod.mk.injEq]
      refine ⟨rfl, ?_⟩
      by_cases h0 : rem.length = 0
      · rw [if_pos h0]
      · rw [if_neg h0]
        refine (Nat.div_eq_of_lt_le (by omega) (by omega)).symm

/-- C6: the paginated fetcher terminates after exactly ceil(N/P) page
    requests (one request with an empty result when N = 0) and returns
    all N items in original server order, under both termination
    policies: stop when no cursor is returned (b = false, the getBlocks
    and block-record listings), and stop when no cursor is returned or
    the last page was shorter than the limit (b = true, fetchFollows). -/
theorem paginate_pages_correct {α : Type} (P : Nat) (b : Bool) (xs : List α) (hP : 0 < P) :
    paginate P b xs = (xs, if xs.length = 0 then 1 else (xs.length + P - 1) / P) := by
  unfold paginate
  exact paginateAux_correct P hP b _ xs (Nat.lt_succ_self _)

/-- Witness for C6: page size 2 with the short-page policy over five
    items takes exactly ceil(5/2) = 3 requests and returns the items in
    order; the count expression evaluates to 3. -/
theorem paginate_pages_correct_witness :
    paginate 2 true [10, 20, 30, 40, 50] =
      ([10, 20, 30, 40, 50],
        if ([10, 20, 30, 40, 50] : List Nat).length = 0 then 1
        else (([10, 20, 30, 40, 50] : List Nat).length + 2 - 1) / 2) ∧
    (if ([10, 20, 30, 40, 50] : List Nat).length = 0 then 1
        else (([10, 20, 30, 40, 50] : List Nat).length + 2 - 1) / 2) = 3 :=
  ⟨paginate_pages_correct 2 true [10, 20, 30, 40, 50] (by decide), by decide⟩

theorem chunksAux_spec {α : Type} (n : Nat) (hn : 0 < n) :
    ∀ (fuel : Nat) (l : List α), l.length ≤ fuel →
      (chunksAux n fuel l).flatten = l ∧
      (chunksAux n fuel l).length = (l.length + (n - 1)) / n ∧
      ∀ c ∈ chunksAux n fuel l, c.length ≤ n := by
  intro fuel
  induction fuel with
  | zero =>
    intro l h
    have hl : l = [] := List.eq_nil_of_length_eq_zero (by omega)
    subst hl
    refine ⟨rfl, ?_, by intro c hc; simp [chunksAux] at hc⟩
    show (chunksAux n 0 ([] : List α)).length = (0 + (n - 1)) / n
    rw [Nat.div_eq_of_lt (by omega)]
    rfl
  | succ fuel ih =>
    intro l h
    match l with
    | [] =>
      refine ⟨rfl, ?_, by intro c hc; simp [chunksAux] at hc⟩
      show (chunksAux n (fuel + 1) ([] : List α)).length = (0 + (n - 1)) / n
      rw [Nat.div_eq_of_lt (by omega)]
      rfl
    | x :: xs =>
      have hstep : chunksAux n (fuel + 1) (x :: xs) =
          (x :: xs).take n :: chunksAux n fuel ((x :: xs).drop n) := rfl
      have hdl : ((x :: xs).drop n).length = (x :: xs).length - n := List.length_drop n _
      have hih := ih ((x :: xs).drop n) (by simp at h ⊢; omega)
      refine ⟨?_, ?_, ?_⟩
      · rw [hstep, List.flatten_cons, hih.1, List.take_append_drop]
      · rw [hstep, List.length_cons, hih.2.1, hdl]
        have hlen1 : 1 ≤ (x :: xs).length := by simp
        by_cases hc : (x :: xs).length ≤ n
        · have e1 : (x :: xs).length - n = 0 := by omega
          rw [e1, Nat.zero_add, Nat.div_eq_of_lt (by omega)]
          exact (Nat.div_eq_of_lt_le (by omega) (by omega)).symm
        · have e1 : (x :: xs).length - n + (n - 1) = ((x :: xs).length - 1) := by omega
          have e2 : (x :: xs).length + (n - 1) = ((x :: xs).length - 1) + n := by omega
          rw [e1, e2, Nat.add_div_right _ hn]
      · intro c hc
        rw [hstep, List.mem_cons] at hc
        rcases hc with rfl | hc
        · rw [List.length_take]
          omega
        · exact hih.2.2 c hc

/-- C7: for every set of records marked for deletion, removeItems
    produces exactly ceil(K/200) sequential applyWrites batches (zero
    when K = 0), each carrying at most 200 delete operations keyed by
    the trailing segment of the record locator, whose concatenation in
    submission order is the full K-operation write list. -/
theorem removeItems_batches (collection : String) (items : List AccountRecord) :
    (removeBatches collection items).flatten = removeWrites collection items ∧
    (removeWrites collection items).length = (items.filter (fun r => r.toDelete)).length ∧
    (removeBatches collection items).length =
      ((items.filter (fun r => r.toDelete)).length + 199) / 200 ∧
    (removeBatches collection items).all (fun c => decide (c.length ≤ 200)) = true := by
  have h := chunksAux_spec 200 (by decide) (removeWrites collection items).length
    (removeWrites collection items) (le_refl _)
  have hlen : (removeWrites collection items).length =
      (items.filter (fun r => r.toDelete)).length := by
    unfold removeWrites
    rw [List.length_map]
  refine ⟨h.1, hlen, ?_, ?_⟩
  · show (chunks 200 (removeWrites collection items)).length = _
    unfold chunks
    rw [h.2.1, hlen]
  · rw [List.all_eq_true]
    intro c hc
    simp only [decide_eq_true_eq]
    exact h.2.2 c hc

/-- C2: in follow mode a record is present in the output if and only if
    the classifier returned a defined status for that follow record; a
    follow whose classification yields no status never produces an
    output record.  (Batch completions interleave in the source, so only
    membership, not order, is determined.) -/
theorem followOutput_mem (toggles : List (Nat × Bool)) (classify : String → ProfileCheckResult)
    (follows : List FollowEntry) (rec : AccountRecord) :
    rec ∈ followOutput toggles classify follows ↔
      ∃ f ∈ follows, ∃ s, (classify f.subject).status = some s ∧
        rec = mkFollowOut toggles f (classify f.subject) s := by
  unfold followOutput
  rw [List.mem_filterMap]
  constructor
  · rintro ⟨f, hf, hsome⟩
    rw [Option.map_eq_some'] at hsome
    obtain ⟨s, hs, hrec⟩ := hsome
    exact ⟨f, hf, s, hs, hrec.symm⟩
  · rintro ⟨f, hf, s, hs, hrec⟩
    refine ⟨f, hf, ?_⟩
    rw [Option.map_eq_some']
    exact ⟨s, hs, hrec.symm⟩

/-- Witness for C2: a follow classified DELETED appears in the output. -/
theorem followOutput_mem_witness :
    mkFollowOut [] (FollowEntry.mk "did:plc:ccc" "at://self/app.bsky.graph.follow/3k9")
        (ProfileCheckResult.mk "alice.test" (some RepoStatus.DELETED) none) RepoStatus.DELETED ∈
      followOutput []
        (fun _ => ProfileCheckResult.mk "alice.test" (some RepoStatus.DELETED) none)
        [FollowEntry.mk "did:plc:ccc" "at://self/app.bsky.graph.follow/3k9"] :=
  (followOutput_mem _ _ _ _).mpr
    ⟨FollowEntry.mk "did:plc:ccc" "at://self/app.bsky.graph.follow/3k9", by decide,
      RepoStatus.DELETED, rfl, rfl⟩

/-- C4: for every failed profile fetch, part_000 checkProfileStatus
    returns normally (the embedding is a total function) with the status
    mapped from the error payload in source priority order — the
    account-deactivated signal to DEACTIVATED, then account-suspended to
    SUSPENDED, then account-deleted / actor-not-found / generic 400 to
    DELETED, anything unrecognized to UNKNOWN — together with the handle
    recovered from the identity document (resolveDid) and a descriptive
    error object carrying type "api", a message, and details. -/
theorem checkProfileStatus_error_mapping (agentDID : String) (resolveDid : String → String)
    (did : String) (e : ErrPayload) :
    (deactivatedSignal e = true →
      (checkProfileStatus_Part agentDID resolveDid did (FetchResult.err e)).status =
        some RepoStatus.DEACTIVATED) ∧
    (deactivatedSignal e = false → suspendedSignal e = true →
      (checkProfileStatus_Part agentDID resolveDid did (FetchResult.err e)).status =
        some RepoStatus.SUSPENDED) ∧
    (deactivatedSignal e = false → suspendedSignal e = false → deletedSignal e = true →
      (checkProfileStatus_Part agentDID resolveDid did (FetchResult.err e)).status =
        some RepoStatus.DELETED) ∧
    (deactivatedSignal e = false → suspendedSignal e = false → deletedSignal e = false →
      (checkProfileStatus_Part agentDID resolveDid did (FetchResult.err e)).status =
        some RepoStatus.UNKNOWN) ∧
    (checkProfileStatus_Part agentDID resolveDid did (FetchResult.err e)).handle =
      resolveDid did ∧
    (checkProfileStatus_Part agentDID resolveDid did (FetchResult.err e)).error =
      some (mkError_Part e) ∧
    (mkError_Part e).etype = "api" ∧
    (mkError_Part e).details = some (ErrDetails.mk e.httpStatus e.errorCode) := by
  refine ⟨?_, ?_, ?_, ?_, rfl, rfl, rfl, rfl⟩
  · intro h1
    show some (classifyError_Part e) = _
    rw [classifyError_Part, if_pos h1]
  · intro h1 h2
    show some (classifyError_Part e) = _
    rw [classifyError_Part, if_neg (by simp [h1]), if_pos h2]
  · intro h1 h2 h3
    show some (classifyError_Part e) = _
    rw [classifyError_Part, if_neg (by simp [h1]), if_neg (by simp [h2]), if_pos h3]
  · intro h1 h2 h3
    show some (classifyError_Part e) = _
    rw [classifyError_Part, if_neg (by simp [h1]), if_neg (by simp [h2]),
      if_neg (by simp [h3])]

/-- Witness for C4: an AccountDeactivated error code maps to DEACTIVATED. -/
theorem checkProfileStatus_error_mapping_witness :
    (checkProfileStatus_Part "did:plc:self" (fun d => d) "did:plc:gone"
        (FetchResult.err (ErrPayload.mk "" "" "AccountDeactivated" none))).status =
      some RepoStatus.DEACTIVATED :=
  (checkProfileStatus_error_mapping "did:plc:self" (fun d => d) "did:plc:gone"
    (ErrPayload.mk "" "" "AccountDeactivated" none)).1 (by decide)

/-- C3: evaluation at the failing input.  App.tsx implements the
    YOURSELF test as res.data.did.includes(agentDID) (substring
    containment), so a distinct subject whose did strictly contains the
    authenticated did is classified YOURSELF, where the claimed priority
    chain — and part_000, which tests strict equality — yields BLOCKING. -/
theorem checkProfileStatus_yourself_divergence :
    (checkProfileStatus_App "did:plc:a" (fun _ => "") "did:plc:ab"
        (FetchResult.ok (Profile.mk "did:plc:ab" "mallory.test" []
          (Viewer.mk false true false)))).status = some RepoStatus.YOURSELF ∧
    (checkProfileStatus_Part "did:plc:a" (fun _ => "") "did:plc:ab"
        (FetchResult.ok (Profile.mk "did:plc:ab" "mallory.test" []
          (Viewer.mk false true false)))).status = some RepoStatus.BLOCKING ∧
    RepoStatus.YOURSELF ≠ RepoStatus.BLOCKING := by
  refine ⟨by decide, by decide, by decide⟩

theorem classifySuccess_App_both_flags (agentDID : String) (p : Profile) (v : Nat)
    (hs : classifySuccess_App agentDID p = some v)
    (hb1 : v &&& RepoStatus.BLOCKEDBY ≠ 0) (hb2 : v &&& RepoStatus.BLOCKING ≠ 0) :
    v = RepoStatus.BLOCKEDBY ||| RepoStatus.BLOCKING := by
  unfold classifySuccess_App at hs
  split_ifs at hs with h1 h2 h3 h4 h5
  · injection hs with h
    subst h
    exact absurd (by decide) hb1
  · injection hs with h
    subst h
    rfl
  · injection hs with h
    subst h
    exact absurd (by decide) hb2
  · injection hs with h
    subst h
    exact absurd (by decide) hb1
  · injection hs with h
    subst h
    exact absurd (by decide) hb1

theorem classifySuccess_Part_both_flags (agentDID : String) (p : Profile) (v : Nat)
    (hs : classifySuccess_Part agentDID p = some v)
    (hb1 : v &&& RepoStatus.BLOCKEDBY ≠ 0) (hb2 : v &&& RepoStatus.BLOCKING ≠ 0) :
    v = RepoStatus.BLOCKEDBY ||| RepoStatus.BLOCKING := by
  unfold classifySuccess_Part at hs
  split_ifs at hs with h1 h2 h3 h4 h5
  · injection hs with h
    subst h
    exact absurd (by decide) hb1
  · injection hs with h
    subst h
    rfl
  · injection hs with h
    subst h
    exact absurd (by decide) hb2
  · injection hs with h
    subst h
    exact absurd (by decide) hb1
  · injection hs with h
    subst h
    exact absurd (by decide) hb1

theorem classifyError_App_no_block_flags (e : ErrPayload) :
    classifyError_App e &&& RepoStatus.BLOCKEDBY = 0 := by
  unfold classifyError_App
  split_ifs <;> decide

theorem classifyError_Part_no_block_flags (e : ErrPayload) :
    classifyError_Part e &&& RepoStatus.BLOCKEDBY = 0 := by
  unfold classifyError_Part
  split_ifs <;> decide

/-- C8 counterexample: the status value BLOCKEDBY|BLOCKING|DELETED
    contains both block flags, yet the label chain (which uses equality
    tests) derives the empty label for it, not the mutual-block label as
    the claim states for every value containing both flags. -/
theorem statusLabel_both_flags_counterexample :
    (RepoStatus.BLOCKEDBY ||| RepoStatus.BLOCKING ||| RepoStatus.DELETED) &&&
        RepoStatus.BLOCKEDBY ≠ 0 ∧
    (RepoStatus.BLOCKEDBY ||| RepoStatus.BLOCKING ||| RepoStatus.DELETED) &&&
        RepoStatus.BLOCKING ≠ 0 ∧
    statusLabelFollow
        (some (RepoStatus.BLOCKEDBY ||| RepoStatus.BLOCKING ||| RepoStatus.DELETED)) =
      "" ∧
    statusLabelFollow
        (some (RepoStatus.BLOCKEDBY ||| RepoStatus.BLOCKING ||| RepoStatus.DELETED)) ≠
      "Mutual Block" := by
  refine ⟨by decide, by decide, by decide, by decide⟩

/-- C8 (amended): for the status BLOCKEDBY|BLOCKING — the only value
    containing both block flags that either classifier ever returns —
    the label derivation yields exactly "Mutual Block" and never
    "Blocked by" or "Blocking"; any classifier status carrying both
    flags is that exact value, so its label is "Mutual Block". -/
theorem mutualBlock_label (agentDID did : String) (resolveDid : String → String)
    (fr : FetchResult) (v : Nat) :
    (statusLabelFollow (some (RepoStatus.BLOCKEDBY ||| RepoStatus.BLOCKING)) = "Mutual Block" ∧
     statusLabelFollow (some (RepoStatus.BLOCKEDBY ||| RepoStatus.BLOCKING)) ≠ "Blocked by" ∧
     statusLabelFollow (some (RepoStatus.BLOCKEDBY ||| RepoStatus.BLOCKING)) ≠ "Blocking") ∧
    ((checkProfileStatus_App agentDID resolveDid did fr).status = some v →
      v &&& RepoStatus.BLOCKEDBY ≠ 0 → v &&& RepoStatus.BLOCKING ≠ 0 →
      v = RepoStatus.BLOCKEDBY ||| RepoStatus.BLOCKING ∧
        statusLabelFollow (some v) = "Mutual Block") ∧
    ((checkProfileStatus_Part agentDID resolveDid did fr).status = some v →
      v &&& RepoStatus.BLOCKEDBY ≠ 0 → v &&& RepoStatus.BLOCKING ≠ 0 →
      v = RepoStatus.BLOCKEDBY ||| RepoStatus.BLOCKING ∧
        statusLabelFollow (some v) = "Mutual Block") := by
  refine ⟨⟨by decide, by decide, by decide⟩, ?_, ?_⟩
  · intro hs hb1 hb2
    cases fr with
    | ok p =>
      have hv := classifySuccess_App_both_flags agentDID p v hs hb1 hb2
      exact ⟨hv, by rw [hv]; decide⟩
    | err e =>
      have hs2 : some (classifyError_App e) = some v := hs
      injection hs2 with h
      subst h
      exact absurd (classifyError_App_no_block_flags e) hb1
  · intro hs hb1 hb2
    cases fr with
    | ok p =>
      have hv := classifySuccess_Part_both_flags agentDID p v hs hb1 hb2
      exact ⟨hv, by rw [hv]; decide⟩
    | err e =>
      have hs2 : some (classifyError_Part e) = some v := hs
      injection hs2 with h
      subst h
      exact absurd (classifyError_Part_no_block_flags e) hb1

/-- Witness for C8: a profile with blockedBy and blocking both set
    classifies to the mutual-block value, whose label is "Mutual Block". -/
theorem mutualBlock_label_witness :
    RepoStatus.BLOCKEDBY ||| RepoStatus.BLOCKING =
        RepoStatus.BLOCKEDBY ||| RepoStatus.BLOCKING ∧
    statusLabelFollow (some (RepoStatus.BLOCKEDBY ||| RepoStatus.BLOCKING)) =
      "Mutual Block" :=
  (mutualBlock_label "did:plc:self" "did:plc:x" (fun _ => "")
      (FetchResult.ok (Profile.mk "did:plc:x" "bob.test" [] (Viewer.mk true true false)))
      (RepoStatus.BLOCKEDBY ||| RepoStatus.BLOCKING)).2.1
    (by decide) (by decide) (by decide)

theorem mkBlock_App_status (toggles : List (Nat × Bool)) (b : BlockEntry)
    (res : ProfileCheckResult) :
    (mkBlock_App toggles b res).status = res.status.getD RepoStatus.UNKNOWN := rfl

theorem mkBlock_Part_status_cases (toggles : List (Nat × Bool)) (b : BlockEntry)
    (res : ProfileCheckResult) :
    (mkBlock_Part toggles b res).status = RepoStatus.DELETED ∨
    (mkBlock_Part toggles b res).status = RepoStatus.DEACTIVATED ∨
    (mkBlock_Part toggles b res).status = RepoStatus.SUSPENDED ∨
    (mkBlock_Part toggles b res).status = RepoStatus.UNKNOWN := by
  have h : (mkBlock_Part toggles b res).status =
      (if res.status = some RepoStatus.DELETED then RepoStatus.DELETED
       else if res.status = some RepoStatus.DEACTIVATED then RepoStatus.DEACTIVATED
       else if res.status = some RepoStatus.SUSPENDED then RepoStatus.SUSPENDED
       else RepoStatus.UNKNOWN) := rfl
  rw [h]
  split_ifs <;> simp

/-- C5 counterexample: a stale block record whose classification
    returns the success-path status HIDDEN is stored by App.tsx
    (status || UNKNOWN) with status HIDDEN, which is none of DELETED,
    DEACTIVATED, SUSPENDED, UNKNOWN — refuting the claim that a
    block-mode record status is always one of those four. -/
theorem blockMode_status_counterexample :
    ((blockModeOutput_App [] [BlockEntry.mk "did:plc:z" "at://self/app.bsky.graph.block/9z"]
        (fun d => checkProfileStatus_App "did:plc:self" (fun _ => "") d
          (FetchResult.ok (Profile.mk "did:plc:z" "zoe.test" ["!hide"]
            (Viewer.mk false false false))))).map (fun r => r.status)) =
      [RepoStatus.HIDDEN] ∧
    RepoStatus.HIDDEN ≠ RepoStatus.DELETED ∧
    RepoStatus.HIDDEN ≠ RepoStatus.DEACTIVATED ∧
    RepoStatus.HIDDEN ≠ RepoStatus.SUSPENDED ∧
    RepoStatus.HIDDEN ≠ RepoStatus.UNKNOWN := by
  refine ⟨by decide, by decide, by decide, by decide, by decide⟩

/-- C5 (amended): every stale record is retained in the block-mode
    output whatever its classification outcome, with did and uri
    preserved in order, in both versions; in part_000 the stored status
    is always one of DELETED, DEACTIVATED, SUSPENDED, UNKNOWN; in
    App.tsx the stored status is the classifier status when defined and
    UNKNOWN when absent, so the four-status invariant holds exactly when
    the classifier yields no status or one of those four (as on every
    failed profile fetch), while any other defined status is stored
    unchanged. -/
theorem blockMode_retention_and_status (toggles : List (Nat × Bool))
    (stale : List BlockEntry) (classify : String → ProfileCheckResult) :
    (blockModeOutput_App toggles stale classify).map (fun r => (r.did, r.uri)) =
      stale.map (fun b => (b.did, b.uri)) ∧
    (blockModeOutput_Part toggles stale classify).map (fun r => (r.did, r.uri)) =
      stale.map (fun b => (b.did, b.uri)) ∧
    (∀ r ∈ blockModeOutput_App toggles stale classify,
      r.status = (classify r.did).status.getD RepoStatus.UNKNOWN) ∧
    (∀ r ∈ blockModeOutput_Part toggles stale classify,
      r.status = RepoStatus.DELETED ∨ r.status = RepoStatus.DEACTIVATED ∨
      r.status = RepoStatus.SUSPENDED ∨ r.status = RepoStatus.UNKNOWN) ∧
    ((∀ d, (classify d).status = none ∨ (classify d).status = some RepoStatus.DELETED ∨
        (classify d).status = some RepoStatus.DEACTIVATED ∨
        (classify d).status = some RepoStatus.SUSPENDED ∨
        (classify d).status = some RepoStatus.UNKNOWN) →
      ∀ r ∈ blockModeOutput_App toggles stale classify,
        r.status = RepoStatus.DELETED ∨ r.status = RepoStatus.DEACTIVATED ∨
        r.status = RepoStatus.SUSPENDED ∨ r.status = RepoStatus.UNKNOWN) := by
  refine ⟨?_, ?_, ?_, ?_, ?_⟩
  · unfold blockModeOutput_App
    rw [List.map_map]
    rfl
  · unfold blockModeOutput_Part
    rw [List.map_map]
    rfl
  · intro r hr
    obtain ⟨b, hb, rfl⟩ := List.mem_map.mp hr
    exact mkBlock_App_status toggles b (classify b.did)
  · intro r hr
    obtain ⟨b, hb, rfl⟩ := List.mem_map.mp hr
    exact mkBlock_Part_status_cases toggles b (classify b.did)
  · intro hrange r hr
    obtain ⟨b, hb, rfl⟩ := List.mem_map.mp hr
    rw [mkBlock_App_status toggles b (classify b.did)]
    rcases hrange b.did with h | h | h | h | h <;> rw [h] <;> simp

/-- Witness for C5: a stale block classified DELETED is stored by
    App.tsx with one of the four block-mode statuses. -/
theorem blockMode_retention_and_status_witness :
    (mkBlock_App [] (BlockEntry.mk "did:plc:q" "at://self/app.bsky.graph.block/1q")
        (ProfileCheckResult.mk "gone.test" (some RepoStatus.DELETED) none)).status =
        RepoStatus.DELETED ∨
    (mkBlock_App [] (BlockEntry.mk "did:plc:q" "at://self/app.bsky.graph.block/1q")
        (ProfileCheckResult.mk "gone.test" (some RepoStatus.DELETED) none)).status =
        RepoStatus.DEACTIVATED ∨
    (mkBlock_App [] (BlockEntry.mk "did:plc:q" "at://self/app.bsky.graph.block/1q")
        (ProfileCheckResult.mk "gone.test" (some RepoStatus.DELETED) none)).status =
        RepoStatus.SUSPENDED ∨
    (mkBlock_App [] (BlockEntry.mk "did:plc:q" "at://self/app.bsky.graph.block/1q")
        (ProfileCheckResult.mk "gone.test" (some RepoStatus.DELETED) none)).status =
        RepoStatus.UNKNOWN :=
  (blockMode_retention_and_status []
      [BlockEntry.mk "did:plc:q" "at://self/app.bsky.graph.block/1q"]
      (fun _ => ProfileCheckResult.mk "gone.test" (some RepoStatus.DELETED) none)).2.2.2.2
    (fun _ => Or.inr (Or.inl rfl)) _ (by decide)

/-- C9: turning the visibility toggle of a status category off
    immediately gives visible = false and toDelete = false to every
    record of the active mode whose status matches the category
    (bitwise, as in editRecords), even for records previously selected
    for deletion. -/
theorem updateToggleState_off (toggles : List (Nat × Bool)) (recs : List AccountRecord)
    (status : Nat) :
    ∀ r ∈ (updateToggleState toggles recs status false).2,
      r.status &&& status ≠ 0 → r.visible = false ∧ r.toDelete = false := by
  intro r hr hmatch
  have hred : (updateToggleState toggles recs status false).2 =
      editRecords (editRecords recs status EditField.visibleF false)
        status EditField.toDeleteF false := rfl
  rw [hred] at hr
  unfold editRecords at hr
  rw [List.map_map] at hr
  obtain ⟨r0, hr0, rfl⟩ := List.mem_map.mp hr
  by_cases hm : r0.status &&& status ≠ 0
  · simp [Function.comp, setField, hm]
  · exfalso
    apply hm
    simp [Function.comp, hm] at hmatch

/-- Witness for C9: a DELETED record selected for deletion is deselected
    and hidden by toggling the DELETED category off. -/
theorem updateToggleState_off_witness :
    AccountRecord.mk "did:plc:d" "dora.test" "at://self/app.bsky.graph.follow/7"
        RepoStatus.DELETED "Deleted" false false ∈
      (updateToggleState [(RepoStatus.DELETED, true)]
        [AccountRecord.mk "did:plc:d" "dora.test" "at://self/app.bsky.graph.follow/7"
          RepoStatus.DELETED "Deleted" true true]
        RepoStatus.DELETED false).2 ∧
    (AccountRecord.mk "did:plc:d" "dora.test" "at://self/app.bsky.graph.follow/7"
        RepoStatus.DELETED "Deleted" false false).visible = false ∧
    (AccountRecord.mk "did:plc:d" "dora.test" "at://self/app.bsky.graph.follow/7"
        RepoStatus.DELETED "Deleted" false false).toDelete = false :=
  ⟨by decide,
    updateToggleState_off [(RepoStatus.DELETED, true)]
      [AccountRecord.mk "did:plc:d" "dora.test" "at://self/app.bsky.graph.follow/7"
        RepoStatus.DELETED "Deleted" true true]
      RepoStatus.DELETED _ (by decide) (by decide)⟩

/-- C10 counterexample: for a classifier result with status HIDDEN the
    two versions store different statuses on the block-mode record:
    App.tsx keeps HIDDEN while part_000 collapses it to UNKNOWN. -/
theorem mkBlock_versions_counterexample :
    (mkBlock_App [] (BlockEntry.mk "did:plc:z" "at://self/app.bsky.graph.block/9z")
        (ProfileCheckResult.mk "zoe.test" (some RepoStatus.HIDDEN) none)).status =
      RepoStatus.HIDDEN ∧
    (mkBlock_Part [] (BlockEntry.mk "did:plc:z" "at://self/app.bsky.graph.block/9z")
        (ProfileCheckResult.mk "zoe.test" (some RepoStatus.HIDDEN) none)).status =
      RepoStatus.UNKNOWN ∧
    RepoStatus.HIDDEN ≠ RepoStatus.UNKNOWN := by
  refine ⟨by decide, by decide, by decide⟩

/-- C10 (amended): the two block-mode record constructions always agree
    on the status label, and agree on the stored status exactly when the
    classifier status is absent (both then store UNKNOWN) or is one of
    DELETED, DEACTIVATED, SUSPENDED, UNKNOWN; for any other defined
    status App.tsx stores it unchanged while part_000 stores UNKNOWN. -/
theorem mkBlock_versions_agreement (toggles : List (Nat × Bool)) (b : BlockEntry)
    (res : ProfileCheckResult) :
    (mkBlock_App toggles b res).status_label = (mkBlock_Part toggles b res).status_label ∧
    ((mkBlock_App toggles b res).status = (mkBlock_Part toggles b res).status ↔
      (res.status = none ∨ res.status = some RepoStatus.DELETED ∨
       res.status = some RepoStatus.DEACTIVATED ∨ res.status = some RepoStatus.SUSPENDED ∨
       res.status = some RepoStatus.UNKNOWN)) := by
  constructor
  · rfl
  · have hApp : (mkBlock_App toggles b res).status = res.status.getD RepoStatus.UNKNOWN := rfl
    have hPart : (mkBlock_Part toggles b res).status =
        (if res.status = some RepoStatus.DELETED then RepoStatus.DELETED
         else if res.status = some RepoStatus.DEACTIVATED then RepoStatus.DEACTIVATED
         else if res.status = some RepoStatus.SUSPENDED then RepoStatus.SUSPENDED
         else RepoStatus.UNKNOWN) := rfl
    rw [hApp, hPart]
    rcases hres : res.status with _ | s
    · simp
    · simp only [Option.getD_some, Option.some.injEq, reduceCtorEq, false_or]
      split_ifs with h1 h2 h3 <;> simp_all [RepoStatus.DELETED, RepoStatus.DEACTIVATED,
        RepoStatus.SUSPENDED, RepoStatus.UNKNOWN]
